import Mathlib

/-!
Shallow embedding of the product-matching and price-analysis core of the
serp_price_checker repository (src/src/core/token_matcher.py,
src/src/core/matcher.py, src/src/core/models.py, src/src/core/analyzer.py,
src/src/analyzer.py and the price-rank metric display in src/app.py),
together with theorems settling the specification claims against it.

Modelling conventions:
* Python floats are modelled exactly by rationals (ℚ).
* Python strings are modelled by Lean strings; case mapping and the regex
  word class cover the ASCII range plus the Latin diacritics that
  normalize_text folds explicitly.
* Python sets of strings are modelled by Finset String.  Where the source
  iterates over a set literal (KNOWN_BRANDS), Python's iteration order is
  implementation defined; it is fixed here to the literal order.  All
  concrete inputs used below contain at most one known brand, so the
  results do not depend on that order.
-/

namespace SerpPriceChecker

/-- Regex word class \w restricted to the modelled alphabet. -/
def isWordChar (c : Char) : Bool := c.isAlphanum || c == '_'

/-- The explicit diacritic folding table of normalize_text. -/
def accentFold (c : Char) : Char :=
  if c ∈ ['á', 'à', 'ä', 'â'] then 'a'
  else if c ∈ ['é', 'è', 'ë', 'ê'] then 'e'
  else if c ∈ ['í', 'ì', 'ï', 'î'] then 'i'
  else if c ∈ ['ó', 'ò', 'ö', 'ô'] then 'o'
  else if c ∈ ['ú', 'ù', 'ü', 'û'] then 'u'
  else if c = 'ñ' then 'n'
  else c

/-- Split a character list on whitespace runs, dropping empty pieces
(the effect of Python str.split with no argument). -/
def splitWsAux : List Char → List Char → List (List Char)
  | [], cur => if cur = [] then [] else [cur.reverse]
  | c :: rest, cur =>
    if c.isWhitespace then
      if cur = [] then splitWsAux rest []
      else cur.reverse :: splitWsAux rest []
    else splitWsAux rest (c :: cur)

def splitWs (s : List Char) : List (List Char) := splitWsAux s []

/-- Contiguous-sublist test used to model Python's substring operator. -/
def listInfix (needle hay : List Char) : Bool :=
  (List.range (hay.length + 1)).any (fun i => needle.isPrefixOf (hay.drop i))

/-- Python substring test: needle in haystack. -/
def strContains (haystack needle : String) : Bool :=
  listInfix needle.data haystack.data

/-- Python str.lower / str.upper, modelled on the character list (the
byte-position-based core String functions do not reduce in the kernel). -/
def pyLower (s : String) : String := String.mk (s.data.map Char.toLower)

def pyUpper (s : String) : String := String.mk (s.data.map Char.toUpper)

/-- Python str.strip: drop surrounding whitespace. -/
def pyStrip (s : String) : String :=
  String.mk (((s.data.dropWhile Char.isWhitespace).reverse.dropWhile
    Char.isWhitespace).reverse)

/-- Python str.replace: replace every non-overlapping occurrence, left
to right.  Fuel bounds the recursion; every step consumes at least one
character of a non-empty pattern's haystack, so the haystack length is
always sufficient. -/
def replaceAllF : Nat → List Char → List Char → List Char → List Char
  | 0, _, _, _ => []
  | _, [], _, _ => []
  | fuel + 1, c :: rest, pat, repl =>
    if pat.isPrefixOf (c :: rest) then
      repl ++ replaceAllF fuel ((c :: rest).drop pat.length) pat repl
    else c :: replaceAllF fuel rest pat repl

/-- The source only replaces the non-empty pattern www. (an empty
pattern, which Python treats specially, cannot arise). -/
def pyReplace (s pat repl : String) : String :=
  if pat = "" then s
  else String.mk (replaceAllF s.data.length s.data pat.data repl.data)

/-- token_matcher.normalize_text: lowercase, fold accents, replace
non-word characters by spaces, collapse whitespace and strip. -/
def normalize_text (text : String) : String :=
  if text = "" then "" else
  let t1 := (text.data.map Char.toLower).map accentFold
  let t2 := t1.map (fun c => if isWordChar c || c.isWhitespace then c else ' ')
  String.intercalate " " ((splitWs t2).map (fun w => String.mk w))

/-- token_matcher.SYNONYMS, in the source's literal (dict insertion) order. -/
def SYNONYMS : List (String × List String) :=
  [("playstation", ["ps", "ps4", "ps5", "psx", "psone"]),
   ("ps5", ["playstation 5", "playstation5", "play station 5"]),
   ("ps4", ["playstation 4", "playstation4", "play station 4"]),
   ("nintendo switch", ["switch", "ns", "nswitch"]),
   ("xbox", ["xb", "xbone", "xboxone", "xboxseries", "xbx", "xbs"]),
   ("iphone", ["apple iphone", "i-phone"]),
   ("ipad", ["apple ipad", "i-pad"]),
   ("macbook", ["apple macbook", "mac book"]),
   ("airpods", ["apple airpods", "air pods"]),
   ("galaxy", ["samsung galaxy"]),
   ("geforce", ["nvidia geforce", "nvidia"]),
   ("radeon", ["amd radeon"]),
   ("ryzen", ["amd ryzen"]),
   ("core", ["intel core"]),
   ("roomba", ["irobot roomba"]),
   ("conga", ["cecotec conga"]),
   ("negro", ["black", "noir", "negra"]),
   ("blanco", ["white", "blanc", "blanca"]),
   ("gris", ["grey", "gray", "silver", "plata"]),
   ("azul", ["blue", "bleu"]),
   ("rojo", ["red", "rouge"]),
   ("verde", ["green", "vert"]),
   ("rosa", ["pink", "rose"]),
   ("dorado", ["gold", "golden", "oro"]),
   ("256gb", ["256 gb", "256g"]),
   ("512gb", ["512 gb", "512g"]),
   ("1tb", ["1 tb", "1000gb", "1024gb"]),
   ("2tb", ["2 tb", "2000gb", "2048gb"])]

/-- token_matcher.expand_with_synonyms: append the canonical term when a
synonym occurs, and the first synonym when the canonical term occurs. -/
def expand_with_synonyms (text : String) : String :=
  let textLower := pyLower text
  SYNONYMS.foldl
    (fun expanded entry =>
      let e1 :=
        if entry.2.any (fun syn => strContains textLower syn) then
          expanded ++ " " ++ entry.1
        else expanded
      if strContains textLower entry.1 && !entry.2.isEmpty then
        e1 ++ " " ++ entry.2.headD ""
      else e1)
    textLower

/-- token_matcher.KNOWN_BRANDS, a Python set literal, in literal order. -/
def KNOWN_BRANDS : List String :=
  ["apple", "iphone", "ipad", "macbook", "airpods", "imac",
   "samsung", "galaxy",
   "xiaomi", "redmi", "poco",
   "huawei", "honor",
   "sony", "xperia", "playstation", "ps4", "ps5",
   "lg", "philips", "panasonic",
   "asus", "rog", "tuf", "zenfone",
   "acer", "nitro", "predator",
   "lenovo", "thinkpad", "ideapad", "legion",
   "hp", "omen", "pavilion", "envy",
   "dell", "alienware", "xps", "inspiron",
   "msi", "raider", "stealth", "cyborg", "katana",
   "gigabyte", "aorus", "aero",
   "razer", "blade",
   "logitech", "corsair", "steelseries", "hyperx", "trust", "genius",
   "tp-link", "netgear", "dlink", "d-link", "ubiquiti", "zyxel", "linksys",
   "seagate", "western digital", "wd", "sandisk", "kingston", "crucial", "toshiba",
   "nvidia", "geforce", "rtx", "gtx",
   "amd", "radeon", "ryzen",
   "intel", "core",
   "canon", "nikon", "fujifilm", "gopro", "dji", "insta360", "osmo",
   "bose", "jbl", "harman", "marshall", "bang olufsen", "sennheiser", "audio technica",
   "braun", "remington", "babyliss", "rowenta", "tefal",
   "nintendo", "switch", "xbox", "microsoft", "valve", "steam", "deck",
   "newskill", "krom", "tempest", "mars gaming", "nox", "coolbox", "ozone",
   "elgato", "streamdeck",
   "bosch", "siemens", "balay", "teka", "zanussi", "electrolux", "whirlpool", "aeg",
   "cecotec", "conga", "mambo", "bamba",
   "dyson", "roomba", "irobot", "roborock", "dreame", "ecovacs",
   "delonghi", "nespresso", "krups", "moulinex", "smeg", "kitchenaid",
   "daikin", "mitsubishi", "hisense", "haier",
   "garmin", "tomtom", "fitbit", "polar", "suunto", "coros",
   "segway", "ninebot", "youin", "nilox", "smartgyro",
   "ikea", "leroy", "bricomart",
   "gardena", "makita", "dewalt", "black decker", "stanley", "einhell", "parkside",
   "pccomponentes", "pccom", "pccm", "amazon", "mediamarkt", "carrefour", "fnac"]

/-- token_matcher.STOP_WORDS (a set; only membership is used). -/
def STOP_WORDS : List String :=
  ["de", "del", "la", "el", "los", "las", "un", "una", "unos", "unas",
   "y", "o", "a", "en", "con", "para", "por", "sin", "sobre",
   "the", "an", "and", "or", "of", "for", "with", "to", "in", "on",
   "es", "eu", "com", "www", "http", "https",
   "nuevo", "new", "oficial", "original", "version", "edicion", "edition",
   "pack", "kit", "set", "bundle", "combo", "lote"]

/-!
A small backtracking matcher for the fixed SKU regexes of
token_matcher.MODEL_PATTERNS.  Each pattern is a sequence of word
boundaries and quantified character classes; greedy quantifiers are
realised by trying the largest repetition count first, which is exactly
Python's backtracking preference for these patterns.
-/

/-- One regex item: a word boundary, or a character class repeated
between lo and hi times (hi = none means unbounded). -/
inductive Rx where
  | bnd : Rx
  | cls : (Char → Bool) → Nat → Option Nat → Rx

/-- Python's \b: true iff exactly one of the neighbouring characters is
a word character (a missing neighbour counts as non-word). -/
def wordBoundary (prev next : Option Char) : Bool :=
  (match prev with | some c => isWordChar c | none => false) !=
  (match next with | some c => isWordChar c | none => false)

/-- Match a sequence of regex items at the start of s, given the
character preceding s.  Returns the number of characters consumed by
the leftmost-greedy match, if any. -/
def matchRxs : List Rx → Option Char → List Char → Option Nat
  | [], _, _ => some 0
  | .bnd :: rs, prev, s =>
    if wordBoundary prev s.head? then matchRxs rs prev s else none
  | .cls p lo hi :: rs, prev, s =>
    let run := (s.takeWhile p).length
    let top := match hi with | none => run | some h => min run h
    if top < lo then none
    else
      (List.range (top + 1 - lo)).findSome? (fun k =>
        let n := top - k
        let prevN := if n = 0 then prev else (s.take n).getLast?
        (matchRxs rs prevN (s.drop n)).map (fun m => n + m))

/-- re.search: try every start position from the left, return the first
match (as the matched substring, i.e. group 0). -/
def reSearch (rxs : List Rx) (s : List Char) : Option String :=
  (List.range (s.length + 1)).findSome? (fun pos =>
    let prev := if pos = 0 then none else (s.take pos).getLast?
    (matchRxs rxs prev (s.drop pos)).map
      (fun len => String.mk ((s.drop pos).take len)))

def isUpperAZ (c : Char) : Bool := 'A' ≤ c && c ≤ 'Z'

def isDigit09 (c : Char) : Bool := c.isDigit

/-- token_matcher.MODEL_PATTERNS, in priority order. -/
def MODEL_PATTERNS : List (List Rx) :=
  [[.bnd, .cls isUpperAZ 2 none, .cls isDigit09 3 none, .cls isUpperAZ 0 none, .bnd],
   [.bnd, .cls isUpperAZ 1 (some 1), .cls isDigit09 2 (some 2),
    .cls isUpperAZ 2 none, .cls isDigit09 0 none, .bnd],
   [.bnd, .cls isDigit09 4 none, .cls isUpperAZ 1 none, .bnd],
   [.bnd, .cls isUpperAZ 1 (some 3), .cls (fun c => c == '-') 0 (some 1),
    .cls isDigit09 3 none, .cls isUpperAZ 0 none, .bnd],
   [.bnd, .cls isUpperAZ 2 none, .cls isDigit09 1 none,
    .cls (fun c => c == '-' || c == '/') 1 (some 1),
    .cls (fun c => isUpperAZ c || isDigit09 c) 1 none, .bnd],
   [.bnd, .cls isDigit09 2 none, .cls isUpperAZ 2 none, .cls isDigit09 1 none, .bnd]]

/-- Model/SKU detection of extract_tokens: first pattern that matches on
the uppercased title wins. -/
def findModel (title : String) : Option String :=
  MODEL_PATTERNS.findSome? (fun pat => reSearch pat (pyUpper title).data)

/-- Unit suffixes of the size/quantity token regex, in alternation order. -/
def UNIT_SUFFIXES : List (List Char) :=
  ["gb", "tb", "mb", "kg", "g", "l", "ml", "w", "v", "hz", "mah", "mm",
   "cm", "m", "pulgadas"].map String.data

/-- Scanner for re.findall of the size/quantity regex
d+(?:[.,]d+)?(?:\s*(unit))? over the normalized text.  The fuel argument
bounds the recursion depth; every step consumes at least one character,
so an initial fuel of the input length is always sufficient. -/
def scanNumbersF : Nat → List Char → List (List Char)
  | 0, _ => []
  | _, [] => []
  | fuel + 1, c :: rest =>
    if c.isDigit then
      let ds := (c :: rest).takeWhile Char.isDigit
      let after := (c :: rest).drop ds.length
      let fracLen :=
        match after with
        | p :: r =>
          if (p == '.' || p == ',') && !(r.takeWhile Char.isDigit).isEmpty then
            1 + (r.takeWhile Char.isDigit).length
          else 0
        | [] => 0
      let frac := after.take fracLen
      let after2 := after.drop fracLen
      let sp := after2.takeWhile Char.isWhitespace
      let afterSp := after2.drop sp.length
      match UNIT_SUFFIXES.find? (fun u => u.isPrefixOf afterSp) with
      | some u => (ds ++ frac ++ sp ++ u) :: scanNumbersF fuel (afterSp.drop u.length)
      | none => (ds ++ frac) :: scanNumbersF fuel after2
    else scanNumbersF fuel rest

def scanNumbers (s : List Char) : List (List Char) := scanNumbersF s.length s

/-- Maximal digit runs, modelling re.findall of d+ over a raw title. -/
def digitRunsAux : List Char → List Char → List String
  | [], cur => if cur = [] then [] else [String.mk cur.reverse]
  | c :: rest, cur =>
    if c.isDigit then digitRunsAux rest (c :: cur)
    else if cur = [] then digitRunsAux rest []
    else String.mk cur.reverse :: digitRunsAux rest []

def digitRuns (s : List Char) : List String := digitRunsAux s []

/-- token_matcher.extract_tokens: returns (tokens, brand, model). -/
def extract_tokens (title : String) :
    Finset String × Option String × Option String :=
  if title = "" then (∅, none, none) else
  let expanded := expand_with_synonyms title
  let normalized := normalize_text expanded
  let brand := KNOWN_BRANDS.find? (fun b => strContains normalized b)
  let model := findModel title
  let words := (splitWs normalized.data).map String.mk
  let tokens0 := words.filter (fun w => 2 ≤ w.length && !STOP_WORDS.contains w)
  let numbers := (scanNumbers normalized.data).map String.mk
  let numToks :=
    (numbers.filter (fun n => 2 ≤ n.length)).map
      (fun n => String.mk (n.data.filter (fun c => c ≠ ' ')))
  ((tokens0 ++ numToks).toFinset, brand, model)

/-!
difflib.SequenceMatcher, as used by calculate_token_match: no junk
predicate is passed, and the popular-element (autojunk) heuristic only
activates on second sequences of 200 or more characters, which cannot
arise for the SKU strings compared here, so it is not modelled.  Only
the total number of matched characters is needed (for ratio).
-/

/-- A matching block: start in a, start in b, length. -/
structure LMatch where
  ai : Nat
  bi : Nat
  size : Nat

/-- One row of the longest-matching-block dynamic program: given the
previous row shifted right by one (with a leading 0), the new row holds
the length of the common diagonal run ending at each position of b. -/
def flmRow (bc : List Char) (ach : Char) : List Nat → List Nat
  | [] => bc.map (fun c => if c == ach then 1 else 0)
  | v :: vs =>
    match bc with
    | [] => []
    | c :: bs => (if c == ach then v + 1 else 0) :: flmRow bs ach vs

def withIdx (l : List α) : List (Nat × α) := (List.range l.length).zip l

/-- difflib find_longest_match on whole sequences (no junk): scan rows
in order of a, positions in order of b, keeping the first block of each
strictly larger size — Python's tie-breaking (earliest in a, then in b). -/
def findLongestMatch (a b : List Char) : LMatch :=
  (withIdx a).foldl
    (fun acc ia =>
      let row := flmRow b ia.2 (0 :: acc.1)
      let best :=
        (withIdx row).foldl
          (fun best jk =>
            if jk.2 > best.size then
              ⟨ia.1 + 1 - jk.2, jk.1 + 1 - jk.2, jk.2⟩
            else best)
          acc.2
      (row, best))
    (List.replicate b.length 0, ⟨0, 0, 0⟩)
  |>.2

/-- Total size of all matching blocks (get_matching_blocks), computed by
the same divide-and-conquer recursion as difflib; only the sum of block
sizes is kept.  Fuel bounds the recursion depth: each recursive call
strictly decreases the combined length of the two slices, so an initial
fuel of the combined length is always sufficient. -/
def matchesTotalF : Nat → List Char → List Char → Nat
  | 0, _, _ => 0
  | fuel + 1, a, b =>
    let m := findLongestMatch a b
    if m.size = 0 then 0
    else
      let left :=
        if 0 < m.ai && 0 < m.bi then
          matchesTotalF fuel (a.take m.ai) (b.take m.bi)
        else 0
      let right :=
        if m.ai + m.size < a.length && m.bi + m.size < b.length then
          matchesTotalF fuel (a.drop (m.ai + m.size)) (b.drop (m.bi + m.size))
        else 0
      m.size + left + right

def matchesTotal (a b : List Char) : Nat :=
  matchesTotalF (a.length + b.length + 1) a b

/-- SequenceMatcher.ratio: 2M / T, and 1.0 when both sequences are empty. -/
def smRatio (a b : List Char) : ℚ :=
  let total := a.length + b.length
  if total = 0 then 1 else 2 * (matchesTotal a b : ℚ) / total

/-- token_matcher.MatchLevel (same members as core.models.MatchLevel). -/
inductive MatchLevel where
  | EXACT
  | VERY_SIMILAR
  | SIMILAR
  | RELATED
  | DIFFERENT
deriving DecidableEq, Repr

/-- token_matcher.TokenMatch. -/
structure TokenMatch where
  score : ℚ
  level : MatchLevel
  matched_tokens : Finset String
  unmatched_tokens : Finset String
  brand_match : Bool
  model_match : Bool
deriving DecidableEq

/-- token_matcher.calculate_token_match, with explicit weights (the
Python defaults are brand 0.25, model 0.35, token 0.40). -/
def calculate_token_match (product_title reference_title : String)
    (brand_weight model_weight token_weight : ℚ) : TokenMatch :=
  let pe := extract_tokens product_title
  let re2 := extract_tokens reference_title
  let p_tokens := pe.1
  let p_brand := pe.2.1
  let p_model := pe.2.2
  let r_tokens := re2.1
  let r_brand := re2.2.1
  let r_model := re2.2.2
  let brand_match : Bool :=
    match p_brand, r_brand with
    | some pb, some rb => pb == rb
    | _, _ => false
  let brandScore : ℚ :=
    match p_brand, r_brand with
    | some pb, some rb => if pb = rb then brand_weight else 0
    | some _, none => brand_weight * (1 / 5)
    | none, some _ => brand_weight * (1 / 5)
    | none, none => 0
  let model_match : Bool :=
    match p_model, r_model with
    | some pm, some rm => pyUpper pm == pyUpper rm
    | _, _ => false
  let modelScore : ℚ :=
    match p_model, r_model with
    | some pm, some rm =>
      if pyUpper pm = pyUpper rm then model_weight
      else
        let sim := smRatio (pyUpper pm).data (pyUpper rm).data
        if sim > 7 / 10 then model_weight * sim else 0
    | _, _ => 0
  let matched := p_tokens ∩ r_tokens
  let all_tokens := p_tokens ∪ r_tokens
  let unmatched := all_tokens \ matched
  let tokenScore : ℚ :=
    if all_tokens.card ≠ 0 then
      token_weight * (matched.card : ℚ) / (all_tokens.card : ℚ)
    else 0
  let p_numbers := (digitRuns product_title.data).toFinset
  let r_numbers := (digitRuns reference_title.data).toFinset
  let bonus : ℚ :=
    if p_numbers.card ≠ 0 ∧ r_numbers.card ≠ 0 then
      1 / 10 * ((p_numbers ∩ r_numbers).card : ℚ) /
        ((max p_numbers.card r_numbers.card : ℕ) : ℚ)
    else 0
  let score := min 1 (brandScore + modelScore + tokenScore + bonus)
  let level :=
    if model_match ∨ score ≥ 9 / 10 then MatchLevel.EXACT
    else if score ≥ 3 / 4 then MatchLevel.VERY_SIMILAR
    else if score ≥ 1 / 2 then MatchLevel.SIMILAR
    else if score ≥ 3 / 10 then MatchLevel.RELATED
    else MatchLevel.DIFFERENT
  ⟨score, level, matched, unmatched, brand_match, model_match⟩

/-- calculate_token_match at the Python default weights. -/
def tokenMatchD (product_title reference_title : String) : TokenMatch :=
  calculate_token_match product_title reference_title (1 / 4) (7 / 20) (2 / 5)

/-!
matcher.py: structured-specs matching.  core.models.ProductSpecs uses
empty strings / zeros for absent fields; Python truthiness tests on a
field are therefore "not equal to the empty value".
-/

/-- core.models.ProductSpecs. -/
structure ProductSpecs where
  brand : String := ""
  series : String := ""
  model_code : String := ""
  processor : String := ""
  processor_gen : String := ""
  ram_gb : ℤ := 0
  storage_gb : ℤ := 0
  storage_type : String := ""
  gpu : String := ""
  gpu_tier : String := ""
  screen_size : ℚ := 0
  screen_resolution : String := ""
  screen_hz : ℤ := 0
  os : String := ""
deriving DecidableEq

/-- Match levels of the structured-specs path.  matcher.py refers to
MatchLevel.EQUIVALENT, a member that core.models.MatchLevel does not
define (reaching that branch in Python raises AttributeError); the
intended distinct tier is modelled as an explicit constructor. -/
inductive SpecMatchLevel where
  | EXACT
  | EQUIVALENT
  | SIMILAR
  | DIFFERENT
deriving DecidableEq, Repr

/-- matcher.calculate_match_score.  The Python function receives two
Product objects and immediately projects their .specs attributes; the
embedding takes the specs records directly. -/
def calculate_match_score (p1 p2 : ProductSpecs) : ℚ × SpecMatchLevel :=
  if p1.model_code ≠ "" ∧ p2.model_code ≠ "" ∧
      pyUpper p1.model_code = pyUpper p2.model_code then
    (1, SpecMatchLevel.EXACT)
  else
    let brandC : ℚ :=
      if p1.brand ≠ "" ∧ p2.brand ≠ "" ∧ pyUpper p1.brand = pyUpper p2.brand
      then 3 / 20 else 0
    let seriesC : ℚ :=
      if p1.series ≠ "" ∧ p2.series ≠ "" then
        if pyUpper p1.series = pyUpper p2.series then 3 / 20
        else if p1.brand = p2.brand then 1 / 20
        else 0
      else 0
    let gpuC : ℚ :=
      if p1.gpu_tier ≠ "" ∧ p2.gpu_tier ≠ "" then
        if p1.gpu_tier = p2.gpu_tier then 1 / 4
        else if p1.gpu ≠ "" ∧ p2.gpu ≠ "" then 1 / 10
        else 0
      else if p1.gpu ≠ "" ∧ p2.gpu ≠ "" then
        if pyUpper p1.gpu = pyUpper p2.gpu then 1 / 4 else 0
      else 0
    let procC : ℚ :=
      if p1.processor_gen ≠ "" ∧ p2.processor_gen ≠ "" then
        if p1.processor_gen = p2.processor_gen then 3 / 20 else 1 / 20
      else if p1.processor ≠ "" ∧ p2.processor ≠ "" then
        if pyUpper p1.processor = pyUpper p2.processor then 3 / 20 else 0
      else 0
    let ramC : ℚ :=
      if p1.ram_gb ≠ 0 ∧ p2.ram_gb ≠ 0 then
        if p1.ram_gb = p2.ram_gb then 3 / 20
        else if |p1.ram_gb - p2.ram_gb| ≤ 8 then 2 / 25
        else 0
      else 0
    let stoC : ℚ :=
      if p1.storage_gb ≠ 0 ∧ p2.storage_gb ≠ 0 then
        if p1.storage_gb = p2.storage_gb then 1 / 10
        else if |p1.storage_gb - p2.storage_gb| ≤ 512 then 1 / 20
        else 0
      else 0
    let scrC : ℚ :=
      if p1.screen_size ≠ 0 ∧ p2.screen_size ≠ 0 then
        if |p1.screen_size - p2.screen_size| < 1 / 2 then 1 / 20 else 0
      else 0
    let score := brandC + seriesC + gpuC + procC + ramC + stoC + scrC
    -- max_score is accumulated unconditionally in the source, one
    -- increment per field, so it always equals the full weight total.
    let max_score : ℚ := 3 / 20 + 3 / 20 + 1 / 4 + 3 / 20 + 3 / 20 + 1 / 10 + 1 / 20
    let final_score := if max_score > 0 then score / max_score else 0
    let level :=
      if final_score ≥ 9 / 10 then SpecMatchLevel.EXACT
      else if final_score ≥ 7 / 10 then SpecMatchLevel.EQUIVALENT
      else if final_score ≥ 1 / 2 then SpecMatchLevel.SIMILAR
      else SpecMatchLevel.DIFFERENT
    (final_score, level)

/-!
core.models and core.analyzer.  The per-product fields that Python
mutates during analysis (match_score, match_level, price_diff_*) are not
part of the product's identity; the match assignments are modelled as a
list of MatchRow values carried in the analysis result, and the
price-diff assignments are not observed by any claim and are elided.
-/

/-- core.models.Product (identity-bearing fields). -/
structure Product where
  title : String
  store : String
  url : String
  price : ℚ
  original_price : Option ℚ := none
  is_offer : Bool := false
  result_type : String := "Shopping Ads"
  rank : ℕ := 0
  is_your_product : Bool := false
deriving DecidableEq

/-- Product.has_price. -/
def Product.hasPrice (p : Product) : Bool := decide (0 < p.price)

/-- Product.discount_pct. -/
def Product.discountPct (p : Product) : Option ℚ :=
  match p.original_price with
  | some op => if op ≠ 0 ∧ p.price < op then some ((op - p.price) / op * 100) else none
  | none => none

/-- core.models.AnalysisConfig. -/
structure AnalysisConfig where
  your_domain : String
  your_price : ℚ
  your_product_url : Option String := none
  product_query : String := ""
  match_by_specs : Bool := true
  min_similarity : ℚ := 60
  exclude_comparators : Bool := true
  only_with_price : Bool := false
  use_llm : Bool := false
  llm_provider : String := "default"

/-- core.models.ProductCluster. -/
structure ProductCluster where
  key : String
  name : String
  products : List Product
deriving DecidableEq

/-- core.models.Recommendation; the human-readable display strings
(title, description, action, impact) and the data payload carry no
logic and are elided. -/
structure Recommendation where
  rec_type : String
  priority : String
deriving DecidableEq

/-- One entry of the matching loop of analyze_prices: the product, the
match score and level assigned to it in place, and whether it was the
identified your-product row (which is skipped by continue). -/
structure MatchRow where
  product : Product
  score : ℚ
  level : MatchLevel
  is_your : Bool
deriving DecidableEq

/-- core.models.PriceAnalysis. -/
structure PriceAnalysis where
  query : String
  your_domain : String
  your_price : ℚ
  your_product : Option Product := none
  your_serp_position : Option ℕ := none
  your_price_rank : ℕ := 0
  your_price_rank_in_cluster : ℕ := 0
  total_products : ℕ := 0
  total_with_price : ℕ := 0
  total_stores : ℕ := 0
  min_price : ℚ := 0
  max_price : ℚ := 0
  avg_price : ℚ := 0
  median_price : ℚ := 0
  cheapest : Option Product := none
  products_cheaper : ℕ := 0
  products_same : ℕ := 0
  products_expensive : ℕ := 0
  clusters : List ProductCluster := []
  your_cluster : Option ProductCluster := none
  all_products : List Product := []
  your_store_products : List Product := []
  exact_matches : List Product := []
  match_rows : List MatchRow := []
  recommendations : List Recommendation := []

/-- Sort key for the nearest-price tie-break: Python uses
abs(price - your_price) when the price is truthy and float('inf')
otherwise; none models infinity. -/
def nearKey (p : Product) (your_price : ℚ) : Option ℚ :=
  if p.price ≠ 0 then some |p.price - your_price| else none

def nearKeyLe : Option ℚ → Option ℚ → Bool
  | _, none => true
  | none, some _ => false
  | some x, some y => decide (x ≤ y)

/-- core.analyzer.identify_your_product. -/
def identify_your_product (products : List Product) (your_domain : String)
    (your_price : ℚ) (your_url : Option String) : Option Product :=
  let byUrl : Option Product :=
    match your_url with
    | some u =>
      if u ≠ "" then
        let uclean := pyStrip (pyLower u)
        match products.find? (fun p =>
            p.url ≠ "" && pyStrip (pyLower p.url) == uclean) with
        | some p => some p
        | none =>
          products.find? (fun p =>
            p.url ≠ "" &&
              (strContains (pyLower p.url) uclean ||
               strContains uclean (pyLower p.url)))
      else none
    | none => none
  match byUrl with
  | some p => some p
  | none =>
    let dclean := pyStrip (pyReplace (pyLower your_domain) "www." "")
    let candidates := products.filter (fun p =>
      strContains (pyLower p.store) dclean || strContains (pyLower p.url) dclean)
    match candidates with
    | [] => none
    | [p] => some p
    | _ =>
      let sorted :=
        if your_price ≠ 0 ∧ 0 < your_price then
          candidates.mergeSort (fun a b =>
            nearKeyLe (nearKey a your_price) (nearKey b your_price))
        else candidates
      sorted.head?

/-- Brand key of a product for clustering: the detected brand, or the
catch-all key when none was detected (brand or 'otras'). -/
def brandKeyOf (p : Product) : String :=
  match (extract_tokens p.title).2.1 with
  | some b => b
  | none => "otras"

/-- Keys of a Python dict built by insertion, i.e. in order of first
appearance; the seen accumulator makes the recursion structural. -/
def firstKeysAux : List String → List String → List String
  | _, [] => []
  | seen, k :: ks =>
    if k ∈ seen then firstKeysAux seen ks
    else k :: firstKeysAux (k :: seen) ks

/-- token_matcher.cluster_by_brand: an insertion-ordered dict from brand
key to the products carrying it, expressed as first-appearance keys
paired with order-preserving filters. -/
def cluster_by_brand (products : List Product) : List (String × List Product) :=
  let keys := firstKeysAux [] (products.map brandKeyOf)
  keys.map (fun k => (k, products.filter (fun p => brandKeyOf p == k)))

/-- Python str.title restricted to ASCII letters: uppercase a letter
that follows a non-letter, lowercase the rest. -/
def pyTitle (s : String) : String :=
  String.mk (s.data.foldl
    (fun acc c =>
      let c2 := if c.isAlpha then (if acc.2 then c.toLower else c.toUpper) else c
      (acc.1 ++ [c2], c.isAlpha))
    (([] : List Char), false)).1

/-- core.analyzer.cluster_products_by_brand. -/
def cluster_products_by_brand (products : List Product) : List ProductCluster :=
  let groups := cluster_by_brand products
  let clusters := (groups.filter (fun g => !g.2.isEmpty)).map (fun g =>
    ProductCluster.mk g.1
      (if g.1 ≠ "otras" then pyTitle g.1 else "Otras marcas") g.2)
  clusters.mergeSort (fun a b => decide (b.products.length ≤ a.products.length))

/-- statistics.median over rationals. -/
def medianQ (l : List ℚ) : ℚ :=
  let s := l.mergeSort (fun a b => decide (a ≤ b))
  let n := s.length
  if n = 0 then 0
  else if n % 2 = 1 then s.getD (n / 2) 0
  else (s.getD (n / 2 - 1) 0 + s.getD (n / 2) 0) / 2

/-- Priority order used to sort recommendations (high, medium, low). -/
def prioVal (p : String) : ℕ :=
  if p = "high" then 0 else if p = "medium" then 1 else if p = "low" then 2 else 3

/-- core.analyzer.generate_recommendations: the six rules, each
appending zero or one recommendation, then a stable sort by priority. -/
def generate_recommendations (analysis : PriceAnalysis)
    (config : AnalysisConfig) : List Recommendation :=
  let your_price := config.your_price
  let r1 : List Recommendation :=
    match analysis.cheapest with
    | some c =>
      if c.price < your_price then
        if 3 < analysis.your_price_rank then
          let prices_sorted :=
            ((analysis.all_products.filter (·.hasPrice)).map (·.price)).mergeSort
              (fun a b => decide (a ≤ b))
          let third_price :=
            if 3 ≤ prices_sorted.length then prices_sorted.getD 2 0 else c.price
          if 0 < your_price - third_price then [⟨"price_reduction", "high"⟩] else []
        else if 1 < analysis.your_price_rank then [⟨"price_reduction", "medium"⟩]
        else []
      else []
    | none => []
  let r2 : List Recommendation :=
    if analysis.your_price_rank = 1 ∧ 1 < analysis.total_with_price then
      let ps := (analysis.all_products.filter (·.hasPrice)).mergeSort
        (fun a b => decide (a.price ≤ b.price))
      match ps with
      | _ :: second :: _ =>
        if 20 < second.price - your_price then [⟨"price_increase", "medium"⟩] else []
      | _ => []
    else []
  let r3 : List Recommendation :=
    if (analysis.exact_matches.filter (fun p => decide (p.price < your_price))) ≠ []
    then [⟨"similar_product_alert", "high"⟩] else []
  let offers := analysis.all_products.filter (fun p => p.is_offer && p.hasPrice)
  let aggressive := offers.filter (fun p =>
    match p.discountPct with
    | some d => decide (d ≠ 0) && decide (15 < d)
    | none => false)
  let r4 : List Recommendation :=
    if aggressive ≠ [] then [⟨"alert", "high"⟩] else []
  let r5 : List Recommendation :=
    if 1 < analysis.your_store_products.length then [⟨"opportunity", "low"⟩] else []
  let r6 : List Recommendation :=
    if analysis.your_serp_position = none ∧ analysis.your_store_products = []
    then [⟨"alert", "high"⟩] else []
  (r1 ++ r2 ++ r3 ++ r4 ++ r5 ++ r6).mergeSort
    (fun a b => decide (prioVal a.priority ≤ prioVal b.priority))

/-- The priced sublist (with_price in analyze_prices). -/
def withPriceOf (products : List Product) : List Product :=
  products.filter (·.hasPrice)

/-- The identified your-product, as analyze_prices computes it. -/
def yourProductOf (products : List Product) (config : AnalysisConfig) :
    Option Product :=
  identify_your_product products config.your_domain config.your_price
    config.your_product_url

/-- The reference title of the matching loop: the identified
your-product's title, else the search query. -/
def referenceTitleOf (products : List Product) (config : AnalysisConfig) : String :=
  match yourProductOf products config with
  | some yp => yp.title
  | none => config.product_query

/-- One iteration of the matching loop of analyze_prices: the
identified your-product's listing is assigned score 1.0 / EXACT and
skipped by continue; every other priced product is matched against the
reference title. -/
def matchRowOf (your_product : Option Product) (reference_title : String)
    (p : Product) : MatchRow :=
  match your_product with
  | some yp =>
    if p.url = yp.url then ⟨p, 1, MatchLevel.EXACT, true⟩
    else
      let m := tokenMatchD p.title reference_title
      ⟨p, m.score, m.level, false⟩
  | none =>
    let m := tokenMatchD p.title reference_title
    ⟨p, m.score, m.level, false⟩

def matchRowsOf (products : List Product) (config : AnalysisConfig) :
    List MatchRow :=
  (withPriceOf products).map
    (matchRowOf (yourProductOf products config) (referenceTitleOf products config))

/-- The exact_matches collection: rows at EXACT or VERY_SIMILAR level,
except the your-product row, which the loop's continue skips before the
append. -/
def exactMatchesOf (rows : List MatchRow) : List Product :=
  rows.filterMap (fun r =>
    if !r.is_your ∧ (r.level = MatchLevel.EXACT ∨ r.level = MatchLevel.VERY_SIMILAR)
    then some r.product else none)

def productsCheaperOf (products : List Product) (config : AnalysisConfig) : ℕ :=
  ((withPriceOf products).filter (fun p => decide (p.price < config.your_price))).length

/-- core.analyzer.analyze_prices. -/
def analyze_prices (products : List Product) (config : AnalysisConfig) :
    PriceAnalysis :=
  let base : PriceAnalysis :=
    { query := config.product_query
      your_domain := config.your_domain
      your_price := config.your_price
      all_products := products
      total_products := products.length }
  let with_price := withPriceOf products
  if with_price.isEmpty then base
  else
    let total_stores :=
      ((with_price.filterMap (fun p => if p.store ≠ "" then some p.store else none)).toFinset).card
    let your_product := yourProductOf products config
    let dclean := pyReplace (pyLower config.your_domain) "www." ""
    let your_store_products := products.filter (fun p =>
      strContains (pyLower p.store) dclean || strContains (pyLower p.url) dclean)
    let prices := (with_price.map (·.price)).mergeSort (fun a b => decide (a ≤ b))
    let cheapest :=
      match with_price with
      | [] => none
      | h :: t => some (t.foldl (fun acc p => if p.price < acc.price then p else acc) h)
    let your_serp_position :=
      (products.findIdx? (fun p =>
        p.is_your_product ||
          (match your_product with
           | some yp => p.url == yp.url
           | none => false))).map (· + 1)
    let your_price := config.your_price
    let products_same := (with_price.filter (fun p => p.price == your_price)).length
    let products_expensive := (with_price.filter (fun p => decide (your_price < p.price))).length
    let match_rows := matchRowsOf products config
    let clusters := cluster_products_by_brand with_price
    let yourClusterRank : Option ProductCluster × ℕ :=
      match your_product with
      | none => (none, 0)
      | some yp =>
        match clusters.find? (fun c => c.products.contains yp) with
        | none => (none, 0)
        | some c =>
          let cluster_sorted := c.products.mergeSort (fun a b => decide (a.price ≤ b.price))
          let idx := cluster_sorted.findIdx? (fun p => p.url == yp.url || p.is_your_product)
          (some c, (idx.map (· + 1)).getD 0)
    let analysis : PriceAnalysis :=
      { base with
        total_with_price := with_price.length
        total_stores := total_stores
        your_product := your_product
        your_store_products := your_store_products
        min_price := prices.headD 0
        max_price := prices.getLastD 0
        avg_price := prices.sum / (prices.length : ℚ)
        median_price := medianQ prices
        cheapest := cheapest
        your_serp_position := your_serp_position
        products_cheaper := productsCheaperOf products config
        products_same := products_same
        products_expensive := products_expensive
        your_price_rank := productsCheaperOf products config + 1
        match_rows := match_rows
        exact_matches := exactMatchesOf match_rows
        clusters := clusters
        your_cluster := yourClusterRank.1
        your_price_rank_in_cluster := yourClusterRank.2 }
    { analysis with recommendations := generate_recommendations analysis config }

/-!
src/src/analyzer.py build_analysis and the price-rank metric displayed
by src/app.py (line 376).  These use the ShoppingResult /
PriceAnalysis dataclasses of src/src/models.py.
-/

/-- src/src/models.py ShoppingResult (the enrichment-only string fields
brand..os are unused by the analysis and elided). -/
structure ShoppingResult where
  position : ℕ
  title : String
  price : ℚ
  store : String
  url : String := ""
  result_type : String := ""
  similarity : ℚ := 0
  original_price : Option ℚ := none
  is_offer : Bool := false
deriving DecidableEq

/-- src/src/models.py PriceAnalysis. -/
structure BuildPriceAnalysis where
  query : String
  your_domain : String
  your_price : ℚ
  your_serp_position : Option ℕ
  your_price_position : ℕ
  total_competitors : ℕ
  cheapest_competitor : Option ShoppingResult
  most_expensive_competitor : Option ShoppingResult
  average_price : Option ℚ
  all_results : List ShoppingResult

/-- src/src/analyzer.py build_analysis. -/
def build_analysis (query your_domain : String) (your_price : ℚ)
    (shopping_results : List ShoppingResult) : BuildPriceAnalysis :=
  let dclean := pyReplace (pyLower your_domain) "www." ""
  let products_with_price := shopping_results.filter (fun r =>
    r.price != 0 && decide (0 < r.price))
  let your_serp_position :=
    (shopping_results.findIdx? (fun r =>
      strContains (pyLower r.store) dclean || strContains (pyLower r.url) dclean)).map (· + 1)
  let sorted_by_price := products_with_price.mergeSort (fun a b => decide (a.price ≤ b.price))
  let your_price_position :=
    (sorted_by_price.takeWhile (fun r => decide (r.price < your_price))).length + 1
  let average_price :=
    if sorted_by_price ≠ [] then
      some ((sorted_by_price.map (·.price)).sum / (sorted_by_price.length : ℚ))
    else none
  ⟨query, your_domain, your_price, your_serp_position, your_price_position,
    sorted_by_price.length, sorted_by_price.head?, sorted_by_price.getLast?,
    average_price, shopping_results⟩

/-- The denominator of the price-rank metric displayed by src/app.py
line 376: len(all_products) + 1, where all_products is the full product
list that was also passed to build_analysis. -/
def displayedRankDenominator (all_products : List ShoppingResult) : ℕ :=
  all_products.length + 1

/-!
Definitions following the words of the specification claims, for
comparison with the source-translated functions above.
-/

/-- Per the words of the structured-specs claim: weighted sum over the
seven fields, normalized by the sum of the weights of exactly the
fields present on both sides. -/
def claimNormalizedScore (p1 p2 : ProductSpecs) : ℚ :=
  let fields : List (Bool × Bool × ℚ) :=
    [(p1.brand ≠ "" ∧ p2.brand ≠ "", pyUpper p1.brand = pyUpper p2.brand, 3 / 20),
     (p1.series ≠ "" ∧ p2.series ≠ "", pyUpper p1.series = pyUpper p2.series, 3 / 20),
     (p1.gpu_tier ≠ "" ∧ p2.gpu_tier ≠ "", p1.gpu_tier = p2.gpu_tier, 1 / 4),
     (p1.processor_gen ≠ "" ∧ p2.processor_gen ≠ "",
       p1.processor_gen = p2.processor_gen, 3 / 20),
     (p1.ram_gb ≠ 0 ∧ p2.ram_gb ≠ 0, p1.ram_gb = p2.ram_gb, 3 / 20),
     (p1.storage_gb ≠ 0 ∧ p2.storage_gb ≠ 0, p1.storage_gb = p2.storage_gb, 1 / 10),
     (p1.screen_size ≠ 0 ∧ p2.screen_size ≠ 0, p1.screen_size = p2.screen_size, 1 / 20)]
  let denom := (fields.map (fun f => if f.1 then f.2.2 else 0)).sum
  let num := (fields.map (fun f => if f.1 ∧ f.2.1 then f.2.2 else 0)).sum
  if denom ≠ 0 then num / denom else 0

/-- The sum of the weight contributions that calculate_match_score
accrues for the seven fields (its score variable before division). -/
def specRawScore (p1 p2 : ProductSpecs) : ℚ :=
  (if p1.brand ≠ "" ∧ p2.brand ≠ "" ∧ pyUpper p1.brand = pyUpper p2.brand
   then 3 / 20 else 0) +
  (if p1.series ≠ "" ∧ p2.series ≠ "" then
     if pyUpper p1.series = pyUpper p2.series then 3 / 20
     else if p1.brand = p2.brand then 1 / 20 else 0
   else 0) +
  (if p1.gpu_tier ≠ "" ∧ p2.gpu_tier ≠ "" then
     if p1.gpu_tier = p2.gpu_tier then 1 / 4
     else if p1.gpu ≠ "" ∧ p2.gpu ≠ "" then 1 / 10 else 0
   else if p1.gpu ≠ "" ∧ p2.gpu ≠ "" then
     if pyUpper p1.gpu = pyUpper p2.gpu then 1 / 4 else 0
   else 0) +
  (if p1.processor_gen ≠ "" ∧ p2.processor_gen ≠ "" then
     if p1.processor_gen = p2.processor_gen then 3 / 20 else 1 / 20
   else if p1.processor ≠ "" ∧ p2.processor ≠ "" then
     if pyUpper p1.processor = pyUpper p2.processor then 3 / 20 else 0
   else 0) +
  (if p1.ram_gb ≠ 0 ∧ p2.ram_gb ≠ 0 then
     if p1.ram_gb = p2.ram_gb then 3 / 20
     else if |p1.ram_gb - p2.ram_gb| ≤ 8 then 2 / 25 else 0
   else 0) +
  (if p1.storage_gb ≠ 0 ∧ p2.storage_gb ≠ 0 then
     if p1.storage_gb = p2.storage_gb then 1 / 10
     else if |p1.storage_gb - p2.storage_gb| ≤ 512 then 1 / 20 else 0
   else 0) +
  (if p1.screen_size ≠ 0 ∧ p2.screen_size ≠ 0 then
     if |p1.screen_size - p2.screen_size| < 1 / 2 then 1 / 20 else 0
   else 0)

/-- Per the words of the numeric-bonus claim: 0.1 times shared numeric
substrings over the union of the numeric substrings of both titles. -/
def claimUnionNumberBonus (product_title reference_title : String) : ℚ :=
  let p_numbers := (digitRuns product_title.data).toFinset
  let r_numbers := (digitRuns reference_title.data).toFinset
  if p_numbers.card ≠ 0 ∧ r_numbers.card ≠ 0 then
    1 / 10 * ((p_numbers ∩ r_numbers).card : ℚ) / ((p_numbers ∪ r_numbers).card : ℚ)
  else 0

/-- The first three scoring components of calculate_token_match (brand,
model, generic tokens), without the numeric bonus and without clamping. -/
def tokenScoreBase (product_title reference_title : String)
    (brand_weight model_weight token_weight : ℚ) : ℚ :=
  let pe := extract_tokens product_title
  let re2 := extract_tokens reference_title
  let brandTerm : ℚ :=
    match pe.2.1, re2.2.1 with
    | some pb, some rb => if pb = rb then brand_weight else 0
    | some _, none => brand_weight * (1 / 5)
    | none, some _ => brand_weight * (1 / 5)
    | none, none => 0
  let modelTerm : ℚ :=
    match pe.2.2, re2.2.2 with
    | some pm, some rm =>
      if pyUpper pm = pyUpper rm then model_weight
      else
        let sim := smRatio (pyUpper pm).data (pyUpper rm).data
        if sim > 7 / 10 then model_weight * sim else 0
    | _, _ => 0
  let tokenTerm : ℚ :=
    if (pe.1 ∪ re2.1).card ≠ 0 then
      token_weight * ((pe.1 ∩ re2.1).card : ℚ) / ((pe.1 ∪ re2.1).card : ℚ)
    else 0
  brandTerm + modelTerm + tokenTerm

/-- Per the words of the rank-denominator claim: the count of priced
competitors, plus one exactly when the seller has no SERP position. -/
def claimRankDenominator (a : BuildPriceAnalysis) : ℕ :=
  let priced := (a.all_results.filter (fun r => decide (0 < r.price))).length
  match a.your_serp_position with
  | some _ => priced
  | none => priced + 1

/-- The numeric-substring bonus component of calculate_token_match (its
step-4 block as a standalone function). -/
def numberBonusOf (product_title reference_title : String) : ℚ :=
  let p_numbers := (digitRuns product_title.data).toFinset
  let r_numbers := (digitRuns reference_title.data).toFinset
  if p_numbers.card ≠ 0 ∧ r_numbers.card ≠ 0 then
    1 / 10 * ((p_numbers ∩ r_numbers).card : ℚ) /
      ((max p_numbers.card r_numbers.card : ℕ) : ℚ)
  else 0

/-!  Helper lemmas shared by the claim theorems. -/

/-- The score returned by calculate_token_match decomposes into the
three-component base plus the numeric bonus, clamped at 1. -/
theorem tokenMatch_score_eq (a b : String) (bw mw tw : ℚ) :
    (calculate_token_match a b bw mw tw).score =
      min 1 (tokenScoreBase a b bw mw tw + numberBonusOf a b) := rfl

theorem tokenScoreBase_nonneg (a b : String) (bw mw tw : ℚ)
    (hbw : 0 ≤ bw) (hmw : 0 ≤ mw) (htw : 0 ≤ tw) :
    0 ≤ tokenScoreBase a b bw mw tw := by
  simp only [tokenScoreBase]
  refine add_nonneg (add_nonneg ?_ ?_) ?_
  · rcases (extract_tokens a).2.1 with _ | pb <;>
      rcases (extract_tokens b).2.1 with _ | rb
    · exact le_refl 0
    · exact mul_nonneg hbw (by norm_num)
    · exact mul_nonneg hbw (by norm_num)
    · dsimp only
      split_ifs <;> simp [hbw]
  · rcases (extract_tokens a).2.2 with _ | pm <;>
      rcases (extract_tokens b).2.2 with _ | rm
    · exact le_refl 0
    · exact le_refl 0
    · exact le_refl 0
    · dsimp only
      split_ifs with h1 h2
      · exact hmw
      · exact mul_nonneg hmw (le_of_lt (lt_trans (by norm_num) h2))
      · exact le_refl 0
  · split_ifs
    · exact div_nonneg (mul_nonneg htw (Nat.cast_nonneg _)) (Nat.cast_nonneg _)
    · exact le_refl 0

theorem numberBonusOf_nonneg (a b : String) : 0 ≤ numberBonusOf a b := by
  simp only [numberBonusOf]
  split_ifs
  · exact div_nonneg (mul_nonneg (by norm_num) (Nat.cast_nonneg _)) (Nat.cast_nonneg _)
  · exact le_refl 0

/-- The level returned by calculate_token_match is determined by its
model_match flag and its score through the fixed threshold table. -/
theorem tokenMatch_level_eq (a b : String) (bw mw tw : ℚ) :
    (calculate_token_match a b bw mw tw).level =
      (if (calculate_token_match a b bw mw tw).model_match ∨
          (calculate_token_match a b bw mw tw).score ≥ 9 / 10 then MatchLevel.EXACT
       else if (calculate_token_match a b bw mw tw).score ≥ 3 / 4 then MatchLevel.VERY_SIMILAR
       else if (calculate_token_match a b bw mw tw).score ≥ 1 / 2 then MatchLevel.SIMILAR
       else if (calculate_token_match a b bw mw tw).score ≥ 3 / 10 then MatchLevel.RELATED
       else MatchLevel.DIFFERENT) := rfl

/-!  Claim theorems. -/

/-- C1 (counterexample): for two specs records that only carry the same
brand, the source returns score 0.15, while the claim's
present-fields-only normalization would give 0.15 / 0.15 = 1. -/
theorem structured_normalization_counterexample :
    (calculate_match_score { brand := "MSI" } { brand := "MSI" }).1 = 3 / 20 ∧
    claimNormalizedScore { brand := "MSI" } { brand := "MSI" } = 1 ∧
    ((3 : ℚ) / 20) ≠ 1 := by
  refine ⟨?_, ?_, by norm_num⟩
  · simp +decide [calculate_match_score]
    norm_num
  · simp +decide [claimNormalizedScore]

/-- C1 (amended): in structured-specs matching without an identical
model code, the score is the accrued weighted sum divided by the full
constant weight total 0.15+0.15+0.25+0.15+0.15+0.10+0.05 = 1.00; the
denominator never excludes the weights of absent fields. -/
theorem structured_score_full_weight_normalization (p1 p2 : ProductSpecs)
    (h : ¬(p1.model_code ≠ "" ∧ p2.model_code ≠ "" ∧
          pyUpper p1.model_code = pyUpper p2.model_code)) :
    (calculate_match_score p1 p2).1 =
      specRawScore p1 p2 /
        (3 / 20 + 3 / 20 + 1 / 4 + 3 / 20 + 3 / 20 + 1 / 10 + 1 / 20) := by
  simp only [calculate_match_score, specRawScore, if_neg h]
  norm_num

theorem structured_score_full_weight_normalization_witness :
    (calculate_match_score { brand := "MSI" } { brand := "MSI" }).1 =
      specRawScore { brand := "MSI" } { brand := "MSI" } /
        (3 / 20 + 3 / 20 + 1 / 4 + 3 / 20 + 3 / 20 + 1 / 10 + 1 / 20) :=
  structured_score_full_weight_normalization _ _ (by decide)

/-- C2 (counterexample): for the titles 1 2 and 2 3 the base components
are all zero, so the score is exactly the numeric bonus; the source
yields 0.1 x 1/2 = 1/20 (denominator max of the two set sizes), while
the claim's union denominator would give 0.1 x 1/3 = 1/30. -/
theorem token_numeric_bonus_union_counterexample :
    (tokenMatchD "1 2" "2 3").score = 1 / 20 ∧
    tokenScoreBase "1 2" "2 3" (1 / 4) (7 / 20) (2 / 5) = 0 ∧
    claimUnionNumberBonus "1 2" "2 3" = 1 / 30 ∧
    ((1 : ℚ) / 20) ≠ 1 / 30 := by
  have e1 : extract_tokens "1 2" = (∅, none, none) := by decide
  have e2 : extract_tokens "2 3" = (∅, none, none) := by decide
  have d1 : digitRuns ("1 2" : String).data = ["1", "2"] := by decide
  have d2 : digitRuns ("2 3" : String).data = ["2", "3"] := by decide
  have c1 : ((["1", "2"] : List String).toFinset ∩
      (["2", "3"] : List String).toFinset).card = 1 := by decide
  have c4 : ((["1", "2"] : List String).toFinset ∪
      (["2", "3"] : List String).toFinset).card = 3 := by decide
  have c2 : (["1", "2"] : List String).toFinset.card = 2 := by decide
  have c3 : (["2", "3"] : List String).toFinset.card = 2 := by decide
  refine ⟨?_, ?_, ?_, by norm_num⟩
  · rw [tokenMatchD, tokenMatch_score_eq]
    simp only [tokenScoreBase, numberBonusOf, e1, e2, d1, d2, c1, c2, c3]
    norm_num [min_def]
  · simp only [tokenScoreBase, e1, e2]
    norm_num
  · simp only [claimUnionNumberBonus, d1, d2, c1, c2, c3, c4]
    norm_num

/-- C2 (amended): when both original titles contain at least one digit
run, the numeric bonus added to the three base components before
clamping is 0.1 times the shared digit runs over the LARGER of the two
digit-run sets (max), not over their union. -/
theorem token_numeric_bonus_max_denominator (a b : String) (bw mw tw : ℚ)
    (h1 : ((digitRuns a.data).toFinset).card ≠ 0)
    (h2 : ((digitRuns b.data).toFinset).card ≠ 0) :
    (calculate_token_match a b bw mw tw).score =
      min 1 (tokenScoreBase a b bw mw tw +
        1 / 10 * (((digitRuns a.data).toFinset ∩ (digitRuns b.data).toFinset).card : ℚ) /
          ((max ((digitRuns a.data).toFinset).card ((digitRuns b.data).toFinset).card : ℕ) : ℚ)) := by
  rw [tokenMatch_score_eq]
  simp only [numberBonusOf]
  rw [if_pos ⟨h1, h2⟩]

theorem token_numeric_bonus_max_denominator_witness :
    (calculate_token_match "1 2" "2 3" (1 / 4) (7 / 20) (2 / 5)).score =
      min 1 (tokenScoreBase "1 2" "2 3" (1 / 4) (7 / 20) (2 / 5) +
        1 / 10 * (((digitRuns ("1 2" : String).data).toFinset ∩
            (digitRuns ("2 3" : String).data).toFinset).card : ℚ) /
          ((max ((digitRuns ("1 2" : String).data).toFinset).card
              ((digitRuns ("2 3" : String).data).toFinset).card : ℕ) : ℚ)) :=
  token_numeric_bonus_max_denominator "1 2" "2 3" (1 / 4) (7 / 20) (2 / 5)
    (by decide) (by decide)

/-- C8 (counterexample): with a detected SERP position for the seller
and one unpriced listing, the app displays len(all_products)+1 = 4,
while the claim's convention (priced competitors, no +1 when a SERP
position exists) gives 2. -/
theorem rank_denominator_counterexample :
    (build_analysis "q" "pccomponentes.com" 100
        [{ position := 1, title := "a", price := 100, store := "pccomponentes.com",
           url := "https://pccomponentes.com/x" },
         { position := 2, title := "b", price := 90, store := "amazon.es",
           url := "https://amazon.es/y" },
         { position := 3, title := "c", price := 0, store := "fnac.es",
           url := "https://fnac.es/z" }]).your_serp_position = some 1 ∧
    displayedRankDenominator
        [{ position := 1, title := "a", price := 100, store := "pccomponentes.com",
           url := "https://pccomponentes.com/x" },
         { position := 2, title := "b", price := 90, store := "amazon.es",
           url := "https://amazon.es/y" },
         { position := 3, title := "c", price := 0, store := "fnac.es",
           url := "https://fnac.es/z" }] = 4 ∧
    claimRankDenominator (build_analysis "q" "pccomponentes.com" 100
        [{ position := 1, title := "a", price := 100, store := "pccomponentes.com",
           url := "https://pccomponentes.com/x" },
         { position := 2, title := "b", price := 90, store := "amazon.es",
           url := "https://amazon.es/y" },
         { position := 3, title := "c", price := 0, store := "fnac.es",
           url := "https://fnac.es/z" }]) = 2 ∧
    (4 : ℕ) ≠ 2 := by
  refine ⟨by decide, by decide, by decide, by decide⟩

/-- C8 (amended): the displayed denominator of the rank X of N metric
is always the total number of listed products (priced or not) plus 1,
regardless of whether the seller has a detected SERP position. -/
theorem displayed_rank_denominator_unconditional (query your_domain : String)
    (your_price : ℚ) (products : List ShoppingResult) :
    displayedRankDenominator products =
      (build_analysis query your_domain your_price products).all_results.length + 1 := by
  simp [displayedRankDenominator, build_analysis]

/-- C10: calculate_token_match is total with score in [0,1]; the
token-ratio division is guarded (an empty token-set union contributes
nothing), extraction of an empty title yields no tokens, brand or
model, and two empty titles score 0.0 at level DIFFERENT. -/
theorem token_match_total_bounds :
    (∀ a b : String, 0 ≤ (tokenMatchD a b).score ∧ (tokenMatchD a b).score ≤ 1) ∧
    extract_tokens "" = (∅, none, none) ∧
    (tokenMatchD "" "").score = 0 ∧
    (tokenMatchD "" "").level = MatchLevel.DIFFERENT := by
  have hscore : (tokenMatchD "" "").score = 0 := by
    rw [tokenMatchD, tokenMatch_score_eq]
    have e : extract_tokens "" = (∅, none, none) := rfl
    have d : digitRuns ("" : String).data = [] := rfl
    simp only [tokenScoreBase, numberBonusOf, e, d]
    norm_num [min_def]
  refine ⟨fun a b => ?_, rfl, hscore, ?_⟩
  · rw [tokenMatchD, tokenMatch_score_eq]
    constructor
    · exact le_min (by norm_num)
        (add_nonneg
          (tokenScoreBase_nonneg a b _ _ _ (by norm_num) (by norm_num) (by norm_num))
          (numberBonusOf_nonneg a b))
    · exact min_le_left _ _
  · rw [tokenMatchD, tokenMatch_level_eq]
    have hmm : (calculate_token_match "" "" (1 / 4) (7 / 20) (2 / 5)).model_match = false := by
      decide
    rw [tokenMatchD] at hscore
    rw [hscore, hmm]
    norm_num

/-- The model_match flag of calculate_token_match. -/
theorem tokenMatch_model_match_eq (a b : String) (bw mw tw : ℚ) :
    (calculate_token_match a b bw mw tw).model_match =
      (match (extract_tokens a).2.2, (extract_tokens b).2.2 with
       | some pm, some rm => pyUpper pm == pyUpper rm
       | _, _ => false) := rfl

/-- C4: identical extracted model codes (case-insensitively) classify
as EXACT on both paths; the structured path returns score 1.0
immediately, skipping the weighted scoring, and the token path sets
model_match, which forces level EXACT regardless of the score. -/
theorem model_code_short_circuit :
    (∀ p1 p2 : ProductSpecs, p1.model_code ≠ "" → p2.model_code ≠ "" →
      pyUpper p1.model_code = pyUpper p2.model_code →
      calculate_match_score p1 p2 = (1, SpecMatchLevel.EXACT)) ∧
    (∀ (a b pm rm : String) (bw mw tw : ℚ),
      (extract_tokens a).2.2 = some pm → (extract_tokens b).2.2 = some rm →
      pyUpper pm = pyUpper rm →
      (calculate_token_match a b bw mw tw).level = MatchLevel.EXACT ∧
      (calculate_token_match a b bw mw tw).model_match = true) := by
  constructor
  · intro p1 p2 h1 h2 h3
    simp only [calculate_match_score, if_pos (⟨h1, h2, h3⟩ : _ ∧ _ ∧ _)]
  · intro a b pm rm bw mw tw hpm hrm heq
    have hmm : (calculate_token_match a b bw mw tw).model_match = true := by
      rw [tokenMatch_model_match_eq, hpm, hrm]
      simp [heq]
    refine ⟨?_, hmm⟩
    rw [tokenMatch_level_eq, hmm]
    simp

theorem model_code_short_circuit_witness :
    calculate_match_score { model_code := "ABC-1" } { model_code := "abc-1" } =
      (1, SpecMatchLevel.EXACT) ∧
    (calculate_token_match "AA1121" "AA1121" (1 / 4) (7 / 20) (2 / 5)).level =
      MatchLevel.EXACT :=
  ⟨model_code_short_circuit.1 _ _ (by decide) (by decide) (by decide),
   (model_code_short_circuit.2 "AA1121" "AA1121" "AA1121" "AA1121"
      (1 / 4) (7 / 20) (2 / 5) (by decide) (by decide) rfl).1⟩

/-- With no priced products analyze_prices returns immediately, leaving
every other field of the analysis at its default. -/
theorem analyze_prices_no_priced (products : List Product) (config : AnalysisConfig)
    (h : withPriceOf products = []) :
    analyze_prices products config =
      { query := config.product_query, your_domain := config.your_domain,
        your_price := config.your_price, all_products := products,
        total_products := products.length } := by
  simp [analyze_prices, h]

/-- C7 (amended): when the input contains zero priced products,
analyze_prices returns normally with every statistic at its zero
default, rank 0, empty clusters and an unconditionally empty
recommendation list — generate_recommendations (and with it the
not-visible alert check) is never reached. -/
theorem no_priced_products_all_defaults (products : List Product)
    (config : AnalysisConfig) (h : withPriceOf products = []) :
    (analyze_prices products config).recommendations = [] ∧
    (analyze_prices products config).your_price_rank = 0 ∧
    (analyze_prices products config).clusters = [] ∧
    (analyze_prices products config).min_price = 0 ∧
    (analyze_prices products config).max_price = 0 ∧
    (analyze_prices products config).avg_price = 0 ∧
    (analyze_prices products config).median_price = 0 ∧
    (analyze_prices products config).your_product = none ∧
    (analyze_prices products config).your_serp_position = none ∧
    (analyze_prices products config).your_store_products = [] ∧
    (analyze_prices products config).exact_matches = [] := by
  rw [analyze_prices_no_priced products config h]
  exact ⟨rfl, rfl, rfl, rfl, rfl, rfl, rfl, rfl, rfl, rfl, rfl⟩

theorem no_priced_products_all_defaults_witness :
    (analyze_prices
        [{ title := "t", store := "other.com", url := "https://other.com/a", price := 0 }]
        { your_domain := "myshop.com", your_price := 500 }).recommendations = [] ∧
    (analyze_prices
        [{ title := "t", store := "other.com", url := "https://other.com/a", price := 0 }]
        { your_domain := "myshop.com", your_price := 500 }).your_price_rank = 0 ∧
    (analyze_prices
        [{ title := "t", store := "other.com", url := "https://other.com/a", price := 0 }]
        { your_domain := "myshop.com", your_price := 500 }).clusters = [] ∧
    (analyze_prices
        [{ title := "t", store := "other.com", url := "https://other.com/a", price := 0 }]
        { your_domain := "myshop.com", your_price := 500 }).min_price = 0 ∧
    (analyze_prices
        [{ title := "t", store := "other.com", url := "https://other.com/a", price := 0 }]
        { your_domain := "myshop.com", your_price := 500 }).max_price = 0 ∧
    (analyze_prices
        [{ title := "t", store := "other.com", url := "https://other.com/a", price := 0 }]
        { your_domain := "myshop.com", your_price := 500 }).avg_price = 0 ∧
    (analyze_prices
        [{ title := "t", store := "other.com", url := "https://other.com/a", price := 0 }]
        { your_domain := "myshop.com", your_price := 500 }).median_price = 0 ∧
    (analyze_prices
        [{ title := "t", store := "other.com", url := "https://other.com/a", price := 0 }]
        { your_domain := "myshop.com", your_price := 500 }).your_product = none ∧
    (analyze_prices
        [{ title := "t", store := "other.com", url := "https://other.com/a", price := 0 }]
        { your_domain := "myshop.com", your_price := 500 }).your_serp_position = none ∧
    (analyze_prices
        [{ title := "t", store := "other.com", url := "https://other.com/a", price := 0 }]
        { your_domain := "myshop.com", your_price := 500 }).your_store_products = [] ∧
    (analyze_prices
        [{ title := "t", store := "other.com", url := "https://other.com/a", price := 0 }]
        { your_domain := "myshop.com", your_price := 500 }).exact_matches = [] :=
  no_priced_products_all_defaults _ _ (by decide)

/-- C7 (counterexample): an input with zero priced products where the
seller is invisible (no SERP position and no own-store listings) — the
conditions under which the claim's surviving not-visible alert would
fire — still produces an empty recommendation list: the alert logic
never runs. -/
theorem not_visible_alert_never_fires :
    (analyze_prices
        [{ title := "t", store := "other.com", url := "https://other.com/a", price := 0 }]
        { your_domain := "myshop.com", your_price := 500 }).your_serp_position = none ∧
    (analyze_prices
        [{ title := "t", store := "other.com", url := "https://other.com/a", price := 0 }]
        { your_domain := "myshop.com", your_price := 500 }).your_store_products = [] ∧
    (analyze_prices
        [{ title := "t", store := "other.com", url := "https://other.com/a", price := 0 }]
        { your_domain := "myshop.com", your_price := 500 }).recommendations = [] :=
  ⟨by decide, by decide, by decide⟩

/-- Field characterization of analyze_prices on inputs with at least
one priced product. -/
theorem analyze_prices_rank_eq (products : List Product) (config : AnalysisConfig)
    (h : withPriceOf products ≠ []) :
    (analyze_prices products config).your_price_rank =
      productsCheaperOf products config + 1 ∧
    (analyze_prices products config).products_cheaper =
      productsCheaperOf products config ∧
    (analyze_prices products config).products_same =
      ((withPriceOf products).filter (fun p => p.price == config.your_price)).length ∧
    (analyze_prices products config).products_expensive =
      ((withPriceOf products).filter (fun p => decide (config.your_price < p.price))).length ∧
    (analyze_prices products config).match_rows = matchRowsOf products config ∧
    (analyze_prices products config).exact_matches =
      exactMatchesOf (matchRowsOf products config) ∧
    (analyze_prices products config).your_product = yourProductOf products config ∧
    (analyze_prices products config).clusters =
      cluster_products_by_brand (withPriceOf products) := by
  have hne : ¬((withPriceOf products).isEmpty = true) := by
    simpa [List.isEmpty_iff] using h
  simp only [analyze_prices, if_neg hne]
  exact ⟨trivial, trivial, trivial, trivial, trivial, trivial, trivial, trivial⟩

/-- Replacing one element by one satisfying the predicate no more often
cannot increase the count. -/
theorem countP_set_le {α : Type} (l : List α) (i : ℕ) (a : α) (p : α → Bool)
    (hi : i < l.length) (himp : p a = true → p l[i] = true) :
    (l.set i a).countP p ≤ l.countP p := by
  rw [List.countP_set p l i a hi]
  by_cases hpa : p a = true
  · have hpo := himp hpa
    have hpos : 0 < l.countP p := List.countP_pos_iff.mpr ⟨l[i], List.getElem_mem hi, hpo⟩
    rw [if_pos hpa, if_pos hpo]
    omega
  · rw [if_neg hpa]
    generalize (if p l[i] = true then 1 else 0) = x
    omega

/-- Replacing one element by one satisfying the predicate no less often
cannot decrease the count. -/
theorem countP_set_ge {α : Type} (l : List α) (i : ℕ) (a : α) (p : α → Bool)
    (hi : i < l.length) (himp : p l[i] = true → p a = true) :
    l.countP p ≤ (l.set i a).countP p := by
  rw [List.countP_set p l i a hi]
  by_cases hpo : p l[i] = true
  · have hpos : 0 < l.countP p := List.countP_pos_iff.mpr ⟨l[i], List.getElem_mem hi, hpo⟩
    rw [if_pos hpo, if_pos (himp hpo)]
    omega
  · rw [if_neg hpo]
    generalize (if p a = true then 1 else 0) = x
    omega

/-- Every priced product's price compares to the seller's in exactly
one of the three ways, so the three counters partition the priced list. -/
theorem three_way_price_count (l : List Product) (y : ℚ) :
    (l.filter (fun p => decide (p.price < y))).length +
      (l.filter (fun p => p.price == y)).length +
      (l.filter (fun p => decide (y < p.price))).length = l.length := by
  induction l with
  | nil => rfl
  | cons x xs ih =>
    rcases lt_trichotomy x.price y with hlt | heq | hgt
    · have h1 : decide (x.price < y) = true := decide_eq_true hlt
      have h2 : (x.price == y) = false := by
        simp only [beq_eq_false_iff_ne, ne_eq]
        exact ne_of_lt hlt
      have h3 : decide (y < x.price) = false := decide_eq_false (asymm hlt)
      simp [List.filter_cons, h1, h2, h3]
      omega
    · have h1 : decide (x.price < y) = false := decide_eq_false (by simp [heq])
      have h2 : (x.price == y) = true := beq_iff_eq.mpr heq
      have h3 : decide (y < x.price) = false := decide_eq_false (by simp [heq])
      simp [List.filter_cons, h1, h2, h3]
      omega
    · have h1 : decide (x.price < y) = false := decide_eq_false (asymm hgt)
      have h2 : (x.price == y) = false := by
        simp only [beq_eq_false_iff_ne, ne_eq]
        exact (ne_of_lt hgt).symm
      have h3 : decide (y < x.price) = true := decide_eq_true hgt
      simp [List.filter_cons, h1, h2, h3]
      omega

/-- productsCheaperOf as a single countP over the full product list. -/
theorem productsCheaperOf_eq_countP (products : List Product) (config : AnalysisConfig) :
    productsCheaperOf products config =
      products.countP (fun p => decide (p.price < config.your_price) && p.hasPrice) := by
  simp only [productsCheaperOf, withPriceOf, ← List.countP_eq_length_filter,
    List.countP_filter]

/-- C3 (amended): your_price_rank equals 1 plus the number of priced
products strictly cheaper than the seller's price (whenever a priced
product exists; with none it stays at its default 0); products priced
exactly equal count as neither cheaper nor more expensive (the three
counters partition the priced products); and raising a priced
competitor's price never INCREASES the rank, while lowering it never
DECREASES the rank (the claim states the two monotonicity directions
the other way around). -/
theorem price_rank_formula_and_monotonicity (products : List Product)
    (config : AnalysisConfig) :
    (withPriceOf products ≠ [] →
      (analyze_prices products config).your_price_rank =
        1 + ((withPriceOf products).filter
          (fun p => decide (p.price < config.your_price))).length) ∧
    ((analyze_prices products config).products_cheaper +
       (analyze_prices products config).products_same +
       (analyze_prices products config).products_expensive =
      (withPriceOf products).length) ∧
    (∀ (i : ℕ) (hi : i < products.length) (newP : ℚ),
      0 < products[i].price → products[i].price ≤ newP →
      (analyze_prices (products.set i { products[i] with price := newP })
          config).your_price_rank ≤
        (analyze_prices products config).your_price_rank) ∧
    (∀ (i : ℕ) (hi : i < products.length) (newP : ℚ),
      0 < newP → newP ≤ products[i].price →
      (analyze_prices products config).your_price_rank ≤
        (analyze_prices (products.set i { products[i] with price := newP })
            config).your_price_rank) := by
  refine ⟨?_, ?_, ?_, ?_⟩
  · intro h
    rw [(analyze_prices_rank_eq products config h).1]
    simp only [productsCheaperOf]
    omega
  · by_cases h : withPriceOf products = []
    · rw [analyze_prices_no_priced products config h, h]
      rfl
    · obtain ⟨-, h2, h3, h4, -⟩ := analyze_prices_rank_eq products config h
      rw [h2, h3, h4, productsCheaperOf]
      exact three_way_price_count _ _
  · intro i hi newP hpos hle
    have hilen : i < (products.set i { products[i] with price := newP }).length := by
      simpa using hi
    have hmemold : products[i] ∈ withPriceOf products := by
      refine List.mem_filter.mpr ⟨List.getElem_mem hi, ?_⟩
      simp only [Product.hasPrice, decide_eq_true_eq]
      exact hpos
    have hne1 : withPriceOf products ≠ [] := List.ne_nil_of_mem hmemold
    have hmemnew : ({ products[i] with price := newP } : Product) ∈
        withPriceOf (products.set i { products[i] with price := newP }) := by
      refine List.mem_filter.mpr ⟨?_, ?_⟩
      · have hg := List.getElem_mem hilen
        rwa [List.getElem_set_self hilen] at hg
      · simp only [Product.hasPrice, decide_eq_true_eq]
        exact lt_of_lt_of_le hpos hle
    have hne2 : withPriceOf (products.set i { products[i] with price := newP }) ≠ [] :=
      List.ne_nil_of_mem hmemnew
    rw [(analyze_prices_rank_eq _ config hne2).1, (analyze_prices_rank_eq _ config hne1).1]
    have hcount : productsCheaperOf (products.set i { products[i] with price := newP })
        config ≤ productsCheaperOf products config := by
      rw [productsCheaperOf_eq_countP, productsCheaperOf_eq_countP]
      refine countP_set_le products i _ _ hi ?_
      intro hnew
      simp only [Bool.and_eq_true, decide_eq_true_eq, Product.hasPrice] at hnew ⊢
      exact ⟨lt_of_le_of_lt hle hnew.1, hpos⟩
    omega
  · intro i hi newP hpos hle
    have hilen : i < (products.set i { products[i] with price := newP }).length := by
      simpa using hi
    have hmemold : products[i] ∈ withPriceOf products := by
      refine List.mem_filter.mpr ⟨List.getElem_mem hi, ?_⟩
      simp only [Product.hasPrice, decide_eq_true_eq]
      exact lt_of_lt_of_le hpos hle
    have hne1 : withPriceOf products ≠ [] := List.ne_nil_of_mem hmemold
    have hmemnew : ({ products[i] with price := newP } : Product) ∈
        withPriceOf (products.set i { products[i] with price := newP }) := by
      refine List.mem_filter.mpr ⟨?_, ?_⟩
      · have hg := List.getElem_mem hilen
        rwa [List.getElem_set_self hilen] at hg
      · simp only [Product.hasPrice, decide_eq_true_eq]
        exact hpos
    have hne2 : withPriceOf (products.set i { products[i] with price := newP }) ≠ [] :=
      List.ne_nil_of_mem hmemnew
    rw [(analyze_prices_rank_eq _ config hne2).1, (analyze_prices_rank_eq _ config hne1).1]
    have hcount : productsCheaperOf products config ≤
        productsCheaperOf (products.set i { products[i] with price := newP }) config := by
      rw [productsCheaperOf_eq_countP, productsCheaperOf_eq_countP]
      refine countP_set_ge products i _ _ hi ?_
      intro hold
      simp only [Bool.and_eq_true, decide_eq_true_eq, Product.hasPrice] at hold ⊢
      exact ⟨lt_of_le_of_lt hle hold.1, hpos⟩
    omega

theorem price_rank_formula_and_monotonicity_witness :
    (analyze_prices
        [{ title := "", store := "other.com", url := "u1", price := 480 },
         { title := "", store := "other.com", url := "u2", price := 500 },
         { title := "", store := "other.com", url := "u3", price := 520 }]
        { your_domain := "myshop.com", your_price := 500 }).your_price_rank =
      1 + ((withPriceOf
        [{ title := "", store := "other.com", url := "u1", price := 480 },
         { title := "", store := "other.com", url := "u2", price := 500 },
         { title := "", store := "other.com", url := "u3", price := 520 }]).filter
          (fun p => decide (p.price <
            ({ your_domain := "myshop.com", your_price := 500 } : AnalysisConfig).your_price))).length ∧
    (analyze_prices
        ([{ title := "", store := "other.com", url := "u1", price := 480 },
          { title := "", store := "other.com", url := "u2", price := 500 },
          { title := "", store := "other.com", url := "u3", price := 520 }].set 0
          { ([{ title := "", store := "other.com", url := "u1", price := 480 },
              { title := "", store := "other.com", url := "u2", price := 500 },
              { title := "", store := "other.com", url := "u3", price := 520 }] :
              List Product)[0] with price := 520 })
        { your_domain := "myshop.com", your_price := 500 }).your_price_rank ≤
      (analyze_prices
        [{ title := "", store := "other.com", url := "u1", price := 480 },
         { title := "", store := "other.com", url := "u2", price := 500 },
         { title := "", store := "other.com", url := "u3", price := 520 }]
        { your_domain := "myshop.com", your_price := 500 }).your_price_rank :=
  ⟨(price_rank_formula_and_monotonicity _ _).1 (by decide),
   (price_rank_formula_and_monotonicity _ _).2.2.1 0 (by decide) 520
     (by decide) (by decide)⟩

/-- C3 (counterexample): with seller price 500 and a single competitor,
raising that competitor's price from 480 to 520 moves your_price_rank
from 2 down to 1 — raising a competitor's price DOES decrease the rank,
contrary to the claim's stated direction. -/
theorem price_rank_monotonicity_counterexample :
    (analyze_prices [{ title := "", store := "other.com", url := "u1", price := 480 }]
        { your_domain := "myshop.com", your_price := 500 }).your_price_rank = 2 ∧
    (analyze_prices
        ([{ title := "", store := "other.com", url := "u1", price := 480 }].set 0
          { ([{ title := "", store := "other.com", url := "u1", price := 480 }] :
              List Product)[0] with price := 520 })
        { your_domain := "myshop.com", your_price := 500 }).your_price_rank = 1 :=
  ⟨by decide, by decide⟩

/-- C9: in the token-path matching loop, the priced listing whose URL
matches the identified your-product is assigned match score 1.0 and
level EXACT without being compared against the reference title, and the
loop's continue excludes it from exact_matches even though its level is
EXACT. -/
theorem your_product_row_skipped (products : List Product) (config : AnalysisConfig)
    (yp : Product) (h : (analyze_prices products config).your_product = some yp) :
    (∀ r ∈ (analyze_prices products config).match_rows,
      r.product.url = yp.url →
        r.score = 1 ∧ r.level = MatchLevel.EXACT ∧ r.is_your = true) ∧
    (∀ p ∈ (analyze_prices products config).exact_matches, p.url ≠ yp.url) := by
  by_cases hw : withPriceOf products = []
  · rw [analyze_prices_no_priced products config hw] at h
    simp at h
  · obtain ⟨-, -, -, -, hrows, hex, hyp, -⟩ := analyze_prices_rank_eq products config hw
    rw [hyp] at h
    rw [hrows, hex]
    constructor
    · intro r hr hurl
      rw [matchRowsOf, h] at hr
      obtain ⟨q, hq, rfl⟩ := List.mem_map.mp hr
      by_cases hu : q.url = yp.url
      · simp [matchRowOf, hu]
      · simp [matchRowOf, hu] at hurl
    · intro p hp
      rw [exactMatchesOf] at hp
      obtain ⟨r, hr, hf⟩ := List.mem_filterMap.mp hp
      rw [matchRowsOf, h] at hr
      obtain ⟨q, hq, rfl⟩ := List.mem_map.mp hr
      by_cases hu : q.url = yp.url
      · simp [matchRowOf, hu] at hf
      · have hprod : p = (matchRowOf (some yp)
            (referenceTitleOf products config) q).product := by
          split_ifs at hf
          exact (Option.some_inj.mp hf).symm
        rw [hprod]
        simp [matchRowOf, hu]

theorem your_product_row_skipped_witness :
    (∀ r ∈ (analyze_prices
        [{ title := "t", store := "pccomponentes.com",
           url := "https://pccomponentes.com/a", price := 100 }]
        { your_domain := "pccomponentes.com", your_price := 100 }).match_rows,
      r.product.url = ({ title := "t", store := "pccomponentes.com",
                         url := "https://pccomponentes.com/a",
                         price := 100 } : Product).url →
        r.score = 1 ∧ r.level = MatchLevel.EXACT ∧ r.is_your = true) ∧
    (∀ p ∈ (analyze_prices
        [{ title := "t", store := "pccomponentes.com",
           url := "https://pccomponentes.com/a", price := 100 }]
        { your_domain := "pccomponentes.com", your_price := 100 }).exact_matches,
      p.url ≠ ({ title := "t", store := "pccomponentes.com",
                 url := "https://pccomponentes.com/a",
                 price := 100 } : Product).url) :=
  your_product_row_skipped _ _ _ (by decide)

/-- Membership in the dict-key list: the keys are exactly the elements
of the input not already seen. -/
theorem mem_firstKeysAux (k : String) :
    ∀ (l seen : List String), k ∈ firstKeysAux seen l ↔ k ∈ l ∧ k ∉ seen := by
  intro l
  induction l with
  | nil => intro seen; simp [firstKeysAux]
  | cons x xs ih =>
    intro seen
    by_cases hx : x ∈ seen
    · rw [show firstKeysAux seen (x :: xs) = firstKeysAux seen xs from by
        simp [firstKeysAux, hx]]
      rw [ih seen]
      constructor
      · rintro ⟨h1, h2⟩
        exact ⟨List.mem_cons_of_mem _ h1, h2⟩
      · rintro ⟨h1, h2⟩
        rcases List.mem_cons.mp h1 with rfl | h1'
        · exact absurd hx h2
        · exact ⟨h1', h2⟩
    · rw [show firstKeysAux seen (x :: xs) = x :: firstKeysAux (x :: seen) xs from by
        simp [firstKeysAux, hx]]
      rw [List.mem_cons, ih (x :: seen)]
      constructor
      · rintro (rfl | ⟨h1, h2⟩)
        · exact ⟨List.mem_cons_self _ _, hx⟩
        · exact ⟨List.mem_cons_of_mem _ h1,
            fun hk => h2 (List.mem_cons_of_mem _ hk)⟩
      · rintro ⟨h1, h2⟩
        by_cases hkx : k = x
        · exact Or.inl hkx
        · right
          rcases List.mem_cons.mp h1 with rfl | h1'
          · exact absurd rfl hkx
          · refine ⟨h1', ?_⟩
            intro hk
            rcases List.mem_cons.mp hk with rfl | hk'
            · exact hkx rfl
            · exact h2 hk'

theorem nodup_firstKeysAux : ∀ (l seen : List String), (firstKeysAux seen l).Nodup := by
  intro l
  induction l with
  | nil => intro seen; simp [firstKeysAux]
  | cons x xs ih =>
    intro seen
    by_cases hx : x ∈ seen
    · rw [show firstKeysAux seen (x :: xs) = firstKeysAux seen xs from by
        simp [firstKeysAux, hx]]
      exact ih seen
    · rw [show firstKeysAux seen (x :: xs) = x :: firstKeysAux (x :: seen) xs from by
        simp [firstKeysAux, hx]]
      refine List.nodup_cons.mpr ⟨?_, ih _⟩
      intro hmem
      exact ((mem_firstKeysAux x xs (x :: seen)).mp hmem).2 (List.mem_cons_self x seen)

/-- Summing an indicator over a duplicate-free key list containing the
key yields the indicated value. -/
theorem sum_ite_eq_of_nodup (keys : List String) (K : String) (c : ℕ)
    (hnd : keys.Nodup) (hK : K ∈ keys) :
    (keys.map (fun k => if K = k then c else 0)).sum = c := by
  induction keys with
  | nil => cases hK
  | cons k ks ih =>
    rw [List.map_cons, List.sum_cons]
    rcases List.mem_cons.mp hK with rfl | hK'
    · rw [if_pos rfl]
      have hzero : (ks.map (fun k2 => if K = k2 then c else 0)).sum = 0 := by
        have hnotin : K ∉ ks := (List.nodup_cons.mp hnd).1
        apply List.sum_eq_zero
        intro y hy
        obtain ⟨k2, hk2, rfl⟩ := List.mem_map.mp hy
        rw [if_neg]
        rintro rfl
        exact hnotin hk2
      omega
    · have hKk : K ≠ k := by
        rintro rfl
        exact (List.nodup_cons.mp hnd).1 hK'
      rw [if_neg hKk, ih (List.nodup_cons.mp hnd).2 hK']
      omega

/-- Counting in a filtered list. -/
theorem count_filter_eq {α : Type} [DecidableEq α] (l : List α) (p : α → Bool) (x : α) :
    (l.filter p).count x = if p x = true then l.count x else 0 := by
  by_cases hp : p x = true
  · rw [if_pos hp, List.count_filter hp]
  · rw [if_neg hp]
    exact List.count_eq_zero_of_not_mem (fun hmem => hp (List.mem_filter.mp hmem).2)

/-- Dropping empty groups does not change the flattened members. -/
theorem flatMap_filter_nonempty (L : List (String × List Product)) :
    (L.filter (fun g => !g.2.isEmpty)).flatMap (fun g => g.2) =
      L.flatMap (fun g => g.2) := by
  induction L with
  | nil => rfl
  | cons g gs ih =>
    by_cases hg : g.2.isEmpty = true
    · have hnil : g.2 = [] := List.isEmpty_iff.mp hg
      simp [List.filter_cons, hg, hnil, ih]
    · simp [List.filter_cons, hg, ih]

/-- The members of the brand clusters are, as a multiset, exactly the
input products. -/
theorem cluster_flatMap_perm (l : List Product) :
    ((cluster_products_by_brand l).flatMap (fun c => c.products)).Perm l := by
  simp only [cluster_products_by_brand, cluster_by_brand]
  refine ((List.mergeSort_perm _ _).flatMap_right _).trans ?_
  rw [List.flatMap_map]
  simp only []
  rw [flatMap_filter_nonempty, List.flatMap_map]
  rw [List.perm_iff_count]
  intro x
  rw [List.count_flatMap]
  have hterm : ∀ k ∈ firstKeysAux [] (l.map brandKeyOf),
      (List.count x ∘ fun k => l.filter (fun p => brandKeyOf p == k)) k =
        if brandKeyOf x = k then l.count x else 0 := by
    intro k _
    simp only [Function.comp_apply]
    rw [count_filter_eq]
    by_cases h : brandKeyOf x = k
    · simp [h]
    · simp [h]
  rw [List.map_congr_left hterm]
  by_cases hx : x ∈ l
  · have hkey : brandKeyOf x ∈ firstKeysAux [] (l.map brandKeyOf) :=
      (mem_firstKeysAux _ _ _).mpr ⟨List.mem_map_of_mem _ hx, by simp⟩
    exact sum_ite_eq_of_nodup _ _ _ (nodup_firstKeysAux _ _) hkey
  · rw [List.count_eq_zero_of_not_mem hx]
    apply List.sum_eq_zero
    intro y hy
    obtain ⟨k, -, rfl⟩ := List.mem_map.mp hy
    split_ifs <;> rfl

/-- C6: brand clustering partitions exactly the priced products — the
flattened cluster members are a permutation of the priced sublist (so
each priced listing occurrence lands in exactly one cluster and the
member counts sum to the priced count), every cluster member is priced,
and the analysis clusters are exactly this clustering of the priced
sublist. -/
theorem cluster_partition_invariant (products : List Product)
    (config : AnalysisConfig) :
    ((cluster_products_by_brand (products.filter (·.hasPrice))).flatMap
        (fun c => c.products)).Perm (products.filter (·.hasPrice)) ∧
    ((cluster_products_by_brand (products.filter (·.hasPrice))).all
        (fun c => c.products.all (·.hasPrice))) = true ∧
    (analyze_prices products config).clusters =
      cluster_products_by_brand (products.filter (·.hasPrice)) := by
  refine ⟨cluster_flatMap_perm _, ?_, ?_⟩
  · rw [List.all_eq_true]
    intro c hc
    rw [List.all_eq_true]
    intro p hp
    have hc2 := ((List.mergeSort_perm _ _).mem_iff).mp hc
    simp only [cluster_products_by_brand, cluster_by_brand] at hc
    have hc3 := ((List.mergeSort_perm _ _).mem_iff).mp hc
    obtain ⟨g, hg, rfl⟩ := List.mem_map.mp hc3
    have hgmem := (List.mem_filter.mp hg).1
    obtain ⟨k, -, rfl⟩ := List.mem_map.mp hgmem
    have hp2 := List.mem_filter.mp (List.mem_filter.mp hp).1
    exact hp2.2
  · by_cases hw : withPriceOf products = []
    · rw [analyze_prices_no_priced products config hw]
      have hnil : products.filter (·.hasPrice) = [] := hw
      rw [hnil]
      simp [cluster_products_by_brand, cluster_by_brand, firstKeysAux,
        List.mergeSort_nil]
    · exact (analyze_prices_rank_eq products config hw).2.2.2.2.2.2.2

/-- C5 (amended): calculate_token_match is symmetric in score and
level for every pair of titles in which it is NOT the case that both
titles have detected model codes differing case-insensitively (in that
remaining case the partial-similarity term uses SequenceMatcher.ratio,
which depends on the argument order). -/
theorem token_match_symmetric (a b : String) (bw mw tw : ℚ)
    (h : ∀ pm rm : String, (extract_tokens a).2.2 = some pm →
      (extract_tokens b).2.2 = some rm → pyUpper pm = pyUpper rm) :
    (calculate_token_match a b bw mw tw).score =
      (calculate_token_match b a bw mw tw).score ∧
    (calculate_token_match a b bw mw tw).level =
      (calculate_token_match b a bw mw tw).level := by
  have hbonus : numberBonusOf a b = numberBonusOf b a := by
    simp only [numberBonusOf]
    rw [Finset.inter_comm, Nat.max_comm]
    exact if_congr and_comm rfl rfl
  have hbase : tokenScoreBase a b bw mw tw = tokenScoreBase b a bw mw tw := by
    simp only [tokenScoreBase]
    congr 1
    · congr 1
      · rcases (extract_tokens a).2.1 with _ | pb <;>
          rcases (extract_tokens b).2.1 with _ | rb <;> dsimp only
        by_cases hbe : pb = rb
        · rw [if_pos hbe, if_pos hbe.symm]
        · rw [if_neg hbe, if_neg (Ne.symm hbe)]
      · rcases hpm : (extract_tokens a).2.2 with _ | pm <;>
          rcases hrm : (extract_tokens b).2.2 with _ | rm <;> dsimp only
        have heq := h pm rm hpm hrm
        rw [if_pos heq, if_pos heq.symm]
    · rw [Finset.union_comm, Finset.inter_comm]
  have hmm : (calculate_token_match a b bw mw tw).model_match =
      (calculate_token_match b a bw mw tw).model_match := by
    rw [tokenMatch_model_match_eq, tokenMatch_model_match_eq]
    rcases hpm : (extract_tokens a).2.2 with _ | pm <;>
      rcases hrm : (extract_tokens b).2.2 with _ | rm <;> dsimp only
    have heq := h pm rm hpm hrm
    rw [heq]
  have hscore : (calculate_token_match a b bw mw tw).score =
      (calculate_token_match b a bw mw tw).score := by
    rw [tokenMatch_score_eq, tokenMatch_score_eq, hbase, hbonus]
  refine ⟨hscore, ?_⟩
  rw [tokenMatch_level_eq, tokenMatch_level_eq, hmm, hscore]

theorem token_match_symmetric_witness :
    (calculate_token_match "a1" "b2" (1 / 4) (7 / 20) (2 / 5)).score =
      (calculate_token_match "b2" "a1" (1 / 4) (7 / 20) (2 / 5)).score ∧
    (calculate_token_match "a1" "b2" (1 / 4) (7 / 20) (2 / 5)).level =
      (calculate_token_match "b2" "a1" (1 / 4) (7 / 20) (2 / 5)).level :=
  token_match_symmetric "a1" "b2" (1 / 4) (7 / 20) (2 / 5) (by
    intro pm rm hpm hrm
    have h0 : (extract_tokens "a1").2.2 = none := by decide
    rw [h0] at hpm
    exact Option.noConfusion hpm)

set_option maxRecDepth 8000 in
/-- C5 (counterexample): the titles AA1121 and AA2111 yield differing
model codes whose SequenceMatcher similarity is 5/6 in one direction
(above the 0.7 gate, contributing 0.35 x 5/6 = 7/24) but 2/3 in the
other (below the gate, contributing nothing): swapping the two inputs
changes the score from 7/24 to 0. -/
theorem token_match_symmetry_counterexample :
    (tokenMatchD "AA1121" "AA2111").score = 7 / 24 ∧
    (tokenMatchD "AA2111" "AA1121").score = 0 ∧
    ((7 : ℚ) / 24) ≠ 0 := by
  have e1 : extract_tokens "AA1121" =
      ((["aa1121", "1121"] : List String).toFinset, none, some "AA1121") := by decide
  have e2 : extract_tokens "AA2111" =
      ((["aa2111", "2111"] : List String).toFinset, none, some "AA2111") := by decide
  have hup1 : pyUpper "AA1121" = "AA1121" := by decide
  have hup2 : pyUpper "AA2111" = "AA2111" := by decide
  have hne12 : ("AA1121" : String) ≠ "AA2111" := by decide
  have hne21 : ("AA2111" : String) ≠ "AA1121" := by decide
  have l6 : ("AA1121" : String).data.length = 6 := by decide
  have l6b : ("AA2111" : String).data.length = 6 := by decide
  have m1 : matchesTotal ("AA1121" : String).data ("AA2111" : String).data = 5 := by
    decide
  have m2 : matchesTotal ("AA2111" : String).data ("AA1121" : String).data = 4 := by
    decide
  have sm1 : smRatio ("AA1121" : String).data ("AA2111" : String).data = 5 / 6 := by
    simp only [smRatio, m1, l6, l6b]
    norm_num
  have sm2 : smRatio ("AA2111" : String).data ("AA1121" : String).data = 2 / 3 := by
    simp only [smRatio, m2, l6, l6b]
    norm_num
  have hu : ((["aa1121", "1121"] : List String).toFinset ∪
      (["aa2111", "2111"] : List String).toFinset).card = 4 := by decide
  have hi : ((["aa1121", "1121"] : List String).toFinset ∩
      (["aa2111", "2111"] : List String).toFinset).card = 0 := by decide
  have hu2 : ((["aa2111", "2111"] : List String).toFinset ∪
      (["aa1121", "1121"] : List String).toFinset).card = 4 := by decide
  have hi2 : ((["aa2111", "2111"] : List String).toFinset ∩
      (["aa1121", "1121"] : List String).toFinset).card = 0 := by decide
  have d1 : digitRuns ("AA1121" : String).data = ["1121"] := by decide
  have d2 : digitRuns ("AA2111" : String).data = ["2111"] := by decide
  have hbonus : numberBonusOf "AA1121" "AA2111" = 0 := by
    simp only [numberBonusOf, d1, d2]
    have hbi : ((["1121"] : List String).toFinset ∩
        (["2111"] : List String).toFinset).card = 0 := by decide
    simp [hbi]
  have hbonus2 : numberBonusOf "AA2111" "AA1121" = 0 := by
    simp only [numberBonusOf, d1, d2]
    have hbi : ((["2111"] : List String).toFinset ∩
        (["1121"] : List String).toFinset).card = 0 := by decide
    simp [hbi]
  have hbase1 : tokenScoreBase "AA1121" "AA2111" (1 / 4) (7 / 20) (2 / 5) = 7 / 24 := by
    simp only [tokenScoreBase, e1, e2]
    rw [hup1, hup2, if_neg hne12, sm1]
    rw [if_pos (by norm_num : (5 : ℚ) / 6 > 7 / 10)]
    simp only [hu, hi]
    norm_num
  have hbase2 : tokenScoreBase "AA2111" "AA1121" (1 / 4) (7 / 20) (2 / 5) = 0 := by
    simp only [tokenScoreBase, e1, e2]
    rw [hup1, hup2, if_neg hne21, sm2]
    rw [if_neg (by norm_num : ¬((2 : ℚ) / 3 > 7 / 10))]
    simp only [hu2, hi2]
    norm_num
  refine ⟨?_, ?_, by norm_num⟩
  · rw [tokenMatchD, tokenMatch_score_eq, hbase1, hbonus]
    norm_num [min_def]
  · rw [tokenMatchD, tokenMatch_score_eq, hbase2, hbonus2]
    norm_num [min_def]

end SerpPriceChecker
